import Mathlib

/-!
Verification of the streaming telephony-audio pipeline of the
twilio-websocket-server repository.

The JavaScript sources are shallowly embedded:
bytes are `Nat` values in `0..255`, PCM samples are `Int`,
buffers are `List Nat`, and the stateful `AudioBuffer` class of
`src/gstt.js` becomes explicit state passing over a structure.

On the treatment of JavaScript bitwise operators: each decoder receives a
byte `b` in `0..255` (a `Buffer` element).  For such `b`, the JS expression
`~b` followed by the masks `& 0x80`, `(>> 4) & 0x07`, `& 0x0F` used in the
sources extracts exactly the corresponding bit fields of the 8-bit
complement `255 - b` (the sign extension produced by `~` on a 32-bit int
is erased by every mask, and `>>` being arithmetic preserves this), so the
embedding uses `255 - b` for the complement throughout.
-/

set_option maxRecDepth 100000

deriving instance DecidableEq for Except

namespace TWS

/-! ## Little-endian byte helpers (Buffer.writeUInt32LE / writeUInt16LE) -/

/-- Little-endian encoding of a 16-bit value, as Node's
`Buffer.writeUInt16LE` lays it out. -/
def u16le (v : Nat) : List Nat :=
  [v % 256, v / 256 % 256]

/-- Little-endian encoding of a 32-bit value, as Node's
`Buffer.writeUInt32LE` lays it out. -/
def u32le (v : Nat) : List Nat :=
  [v % 256, v / 256 % 256, v / 65536 % 256, v / 16777216 % 256]

/-- Byte at offset `i` of a byte list (0 when out of range). -/
def byteAt (l : List Nat) (i : Nat) : Nat := l.getD i 0

/-- Read back a little-endian 16-bit field at offset `off`. -/
def readU16LE (l : List Nat) (off : Nat) : Nat :=
  byteAt l off + 256 * byteAt l (off + 1)

/-- Read back a little-endian 32-bit field at offset `off`. -/
def readU32LE (l : List Nat) (off : Nat) : Nat :=
  byteAt l off + 256 * byteAt l (off + 1)
    + 65536 * byteAt l (off + 2) + 16777216 * byteAt l (off + 3)

/-! ## μ-law decoders

The repository contains several parallel μ-law decoder implementations;
each is embedded separately, under the name of the class that holds it. -/

namespace AudioBuffer

/-- Embeds `AudioBuffer.mulawToPcm` of `src/gstt.js` (lines 171-185):
complement the byte, split into sign / exponent / mantissa,
reconstruct `mantissa << (exponent+3)` plus `BIAS = 0x84`, add the
correction term `1 << (exponent+2)` when the exponent is nonzero,
apply the sign.  There is no clipping step in this source function. -/
def mulawToPcm (b : Nat) : Int :=
  let c := 255 - b
  let sign := Nat.land c 0x80
  let exponent := Nat.land (Nat.shiftRight c 4) 0x07
  let mantissa := Nat.land c 0x0F
  let sample0 : Int := (Nat.shiftLeft mantissa (exponent + 3) : Nat)
  let sample1 : Int := sample0 + 0x84
  let sample2 : Int :=
    if exponent ≠ 0 then sample1 + ((Nat.shiftLeft 1 (exponent + 2) : Nat) : Int)
    else sample1
  if sign ≠ 0 then -sample2 else sample2

end AudioBuffer

namespace ImprovedAudioConverter

/-- Embeds `ImprovedAudioConverter.mulawDecode` of `src/unnamed/part_000`
(lines 43-74), the branching decoder: for exponent 0 the value is
`(mantissa << 4) + BIAS`, otherwise `((mantissa | 0x10) << (exponent+3))
+ BIAS`; the result is sign-applied and clipped to `±32635`.
The identical method appears as `TwilioAudioProcessor.mulawDecode`. -/
def mulawDecode (b : Nat) : Int :=
  let c := 255 - b
  let sign := Nat.land c 0x80
  let exponent := Nat.land (Nat.shiftRight c 4) 0x07
  let mantissa := Nat.land c 0x0F
  let linearValue : Int :=
    if exponent = 0 then
      ((Nat.shiftLeft mantissa 4 : Nat) : Int) + 0x84
    else
      ((Nat.shiftLeft (Nat.lor mantissa 0x10) (exponent + 3) : Nat) : Int) + 0x84
  let signed := if sign ≠ 0 then -linearValue else linearValue
  max (-32635) (min 32635 signed)

/-- Embeds one entry of the table built by
`ImprovedAudioConverter.generateMulawTable` of `src/unnamed/part_000`
(lines 83-102): `mantissa << (exponent+3)` plus `BIAS`, sign-applied,
clamped into `[-32768, 32767]` (no correction term, unlike
`AudioBuffer.mulawToPcm`). -/
def mulawTableEntry (i : Nat) : Int :=
  let c := 255 - i
  let sign := Nat.land c 0x80
  let exponent := Nat.land (Nat.shiftRight c 4) 0x07
  let mantissa := Nat.land c 0x0F
  let sample : Int := ((Nat.shiftLeft mantissa (exponent + 3) : Nat) : Int) + 0x84
  let signed := if sign ≠ 0 then -sample else sample
  max (-32768) (min 32767 signed)

/-- Embeds `ImprovedAudioConverter.generateMulawTable` itself: the
256-entry lookup table, entry `i` computed by the loop body. -/
def generateMulawTable : List Int :=
  (List.range 256).map mulawTableEntry

/-- Embeds `ImprovedAudioConverter.mulawDecodeAlt` of
`src/unnamed/part_000` (lines 77-81): index the generated table. -/
def mulawDecodeAlt (b : Nat) : Int :=
  generateMulawTable.getD b 0

end ImprovedAudioConverter

namespace Base64ToWavConverter

/-- Embeds `Base64ToWavConverter.mulawDecode` of `src/unnamed/part_001`
(lines 56-83): `mantissa << (exponent+3)` plus `BIAS`, sign-applied,
clipped to `±32635`; no exponent-correction term.  The identical method
appears as `AudioStitcher.mulawDecode` in `src/unnamed/part_002`. -/
def mulawDecode (b : Nat) : Int :=
  let c := 255 - b
  let sign := Nat.land c 0x80
  let exponent := Nat.land (Nat.shiftRight c 4) 0x07
  let mantissa := Nat.land c 0x0F
  let sample : Int := ((Nat.shiftLeft mantissa (exponent + 3) : Nat) : Int) + 0x84
  let signed := if sign ≠ 0 then -sample else sample
  max (-32635) (min 32635 signed)

end Base64ToWavConverter

/-- Two's-complement little-endian storage of a decoded sample: an
`Int16Array` store followed by `Buffer.from(...)` (or a direct
`writeInt16LE`) lays out the low 16 bits of the value, LSB first. -/
def intToInt16LEBytes (v : Int) : List Nat :=
  u16le ((v % 65536).toNat)

/-! ## WAV container writers -/

namespace AudioBuffer

/-- Embeds `AudioBuffer.createWavHeader` of `src/gstt.js` (lines 187-208):
the canonical 44-byte RIFF/WAVE header with sample rate 8000, one
channel, 16 bits per sample; bracketed literals are the ASCII tag bytes
written by `header.write`. -/
def createWavHeader (dataLength : Nat) : List Nat :=
  [0x52, 0x49, 0x46, 0x46]
  ++ u32le (36 + dataLength)
  ++ [0x57, 0x41, 0x56, 0x45]
  ++ [0x66, 0x6D, 0x74, 0x20]
  ++ u32le 16
  ++ u16le 1
  ++ u16le 1
  ++ u32le 8000
  ++ u32le (8000 * 1 * 16 / 8)
  ++ u16le (1 * 16 / 8)
  ++ u16le 16
  ++ [0x64, 0x61, 0x74, 0x61]
  ++ u32le dataLength

/-- Embeds `AudioBuffer.createWavBuffer` of `src/gstt.js` (lines 157-169):
decode every μ-law byte with `mulawToPcm`, store the samples as 16-bit
little-endian words, and prepend the header for the resulting length. -/
def createWavBuffer (mulawData : List Nat) : List Nat :=
  let pcmBuffer := (mulawData.map (fun b => intToInt16LEBytes (mulawToPcm b))).flatten
  createWavHeader pcmBuffer.length ++ pcmBuffer

end AudioBuffer

namespace Base64ToWavConverter

/-- Embeds `Base64ToWavConverter.createWavBuffer` of `src/unnamed/part_001`
(lines 86-119): 44-byte header (sample rate 8000, 1 channel, 16 bits per
sample) followed by the PCM payload copied verbatim. -/
def createWavBuffer (pcmData : List Nat) : List Nat :=
  let bytesPerSample := 16 / 8
  let blockAlign := 1 * bytesPerSample
  let byteRate := 8000 * blockAlign
  let dataSize := pcmData.length
  let fileSize := 36 + dataSize
  [0x52, 0x49, 0x46, 0x46]
  ++ u32le fileSize
  ++ [0x57, 0x41, 0x56, 0x45]
  ++ [0x66, 0x6D, 0x74, 0x20]
  ++ u32le 16
  ++ u16le 1
  ++ u16le 1
  ++ u32le 8000
  ++ u32le byteRate
  ++ u16le blockAlign
  ++ u16le 16
  ++ [0x64, 0x61, 0x74, 0x61]
  ++ u32le dataSize
  ++ pcmData

end Base64ToWavConverter

namespace AudioStitcher

/-- Embeds `AudioStitcher.mulawDecode` of `src/unnamed/part_002`
(lines 60-81), textually identical to `Base64ToWavConverter.mulawDecode`. -/
def mulawDecode (b : Nat) : Int :=
  let c := 255 - b
  let sign := Nat.land c 0x80
  let exponent := Nat.land (Nat.shiftRight c 4) 0x07
  let mantissa := Nat.land c 0x0F
  let sample : Int := ((Nat.shiftLeft mantissa (exponent + 3) : Nat) : Int) + 0x84
  let signed := if sign ≠ 0 then -sample else sample
  max (-32635) (min 32635 signed)

/-- Embeds `AudioStitcher.mulawToPcm` of `src/unnamed/part_002`:
each μ-law byte becomes one 16-bit little-endian PCM sample. -/
def mulawToPcm (mulawBuffer : List Nat) : List Nat :=
  (mulawBuffer.map (fun b => intToInt16LEBytes (mulawDecode b))).flatten

/-- Embeds `AudioStitcher.createWavBuffer` of `src/unnamed/part_002`
(lines 84-117), parameterized over sample rate, channels and bit depth
as in the source. -/
def createWavBuffer (pcmData : List Nat) (sampleRate channels bitsPerSample : Nat) :
    List Nat :=
  let bytesPerSample := bitsPerSample / 8
  let blockAlign := channels * bytesPerSample
  let byteRate := sampleRate * blockAlign
  let dataSize := pcmData.length
  let fileSize := 36 + dataSize
  [0x52, 0x49, 0x46, 0x46]
  ++ u32le fileSize
  ++ [0x57, 0x41, 0x56, 0x45]
  ++ [0x66, 0x6D, 0x74, 0x20]
  ++ u32le 16
  ++ u16le 1
  ++ u16le channels
  ++ u32le sampleRate
  ++ u32le byteRate
  ++ u16le blockAlign
  ++ u16le bitsPerSample
  ++ [0x64, 0x61, 0x74, 0x61]
  ++ u32le dataSize
  ++ pcmData

/-- Error text thrown by `AudioStitcher.createWavFile` when no chunks are
pending. -/
def errNoChunks : String := "No audio chunks to process"

/-- Embeds `AudioStitcher.createWavFile` of `src/unnamed/part_002`
(lines 17-44): with zero pending chunks it throws; otherwise it
concatenates the chunks (the source joins the base64 strings before one
decode, which byte-wise equals concatenating the decoded chunks),
converts μ-law to PCM and wraps the result in a WAV container.  The
fallible throw is embedded as `Except`. -/
def createWavFile (audioChunks : List (List Nat)) : Except String (List Nat) :=
  if audioChunks.length = 0 then
    .error errNoChunks
  else
    let mulawBuffer := audioChunks.flatten
    let pcmBuffer := mulawToPcm mulawBuffer
    .ok (createWavBuffer pcmBuffer 8000 1 16)

end AudioStitcher

/-! ## Offline reassembly: TwilioAudioProcessor -/

/-- Event tag of a Twilio media message. -/
def mediaEvent : String := "media"

/-- A parsed Twilio WebSocket message as consumed by
`TwilioAudioProcessor.extractAudioFromTwilioArray`
(second script inside `src/dialogflow-service.js`): an event tag, a
sequence number (`parseInt` of the transmitted string) and, for media
messages, the payload; `payload := none` models a message whose
`media.payload` is absent or empty (falsy in the source's filter). -/
structure TwilioMsg where
  event : String
  sequenceNumber : Nat
  payload : Option (List Nat)
deriving DecidableEq

/-- Error text thrown when no media messages are found. -/
def errNoMediaMessages : String := "No media messages found"

namespace TwilioAudioProcessor

/-- Embeds `TwilioAudioProcessor.extractAudioFromTwilioArray` of
`src/dialogflow-service.js` (lines 142-197 of the embedded script):
filter the media messages carrying a payload, throw when there are
none, stable-sort ascending by `sequenceNumber` (the source's
`Array.prototype.sort` with comparator `a.seq - b.seq` is stable and
produces exactly the stable ascending order, here `List.mergeSort`),
base64-decode each payload (identity at the byte level of this model)
and concatenate the decoded buffers in that order. -/
def extractAudioFromTwilioArray (msgs : List TwilioMsg) : Except String (List Nat) :=
  let mediaMessages := msgs.filter (fun m => m.event == mediaEvent && m.payload.isSome)
  if mediaMessages.length = 0 then
    .error errNoMediaMessages
  else
    let sorted := mediaMessages.mergeSort
      (fun a b => Nat.ble a.sequenceNumber b.sequenceNumber)
    .ok ((sorted.map (fun m => m.payload.getD [])).flatten)

end TwilioAudioProcessor

/-! ## The live session state machine of src/gstt.js

The `AudioBuffer` class of `src/gstt.js` becomes explicit state passing.
The state is polymorphic in the chunk type `χ`: the source instantiates
it with decoded byte buffers (`χ = List Nat`); the polymorphism itself
witnesses that the buffer logic never inspects the payloads, so runs may
also be instrumented with provenance-tagged payloads
(`χ = String × List Nat`) without changing any transition. -/

namespace AudioBuffer

/-- Mutable fields of the `AudioBuffer` class of `src/gstt.js` that the
audio pipeline reads or writes: the pending chunk list, the chunk
counter, the recording flag, whether `processingInterval` is set, the
time of the last flush, the `minChunksBeforeProcessing` threshold set to
100 by the constructor, and the session id. -/
structure State (χ : Type) where
  audioChunks : List χ
  chunkCount : Nat
  isRecording : Bool
  intervalActive : Bool
  lastProcessTime : Nat
  minChunksBeforeProcessing : Nat
  sessionId : Option String
deriving DecidableEq

/-- The constructor state of `AudioBuffer` (`src/gstt.js` lines 28-49):
empty chunk list, no timer, `lastProcessTime = 0`,
`minChunksBeforeProcessing = 100`, no session. -/
def initState {χ : Type} : State χ :=
  { audioChunks := []
    chunkCount := 0
    isRecording := false
    intervalActive := false
    lastProcessTime := 0
    minChunksBeforeProcessing := 100
    sessionId := none }

/-- Embeds `AudioBuffer.addAudioChunk` (lines 87-106): append the decoded
payload, bump the counter, and on the first chunk of a recording start
the repeating processing timer. -/
def addAudioChunk {χ : Type} (s : State χ) (payload : χ) : State χ :=
  { s with
    chunkCount := s.chunkCount + 1
    audioChunks := s.audioChunks ++ [payload]
    isRecording := true
    intervalActive := if s.isRecording then s.intervalActive else true }

/-- Embeds `AudioBuffer.processAccumulatedAudio` (lines 108-141) as a pure
transition at time `now`: skip when fewer than 3000 ms have passed since
the last flush, skip when fewer than `minChunksBeforeProcessing` chunks
are pending; otherwise record the flush time, clear the pending list
and counter, and emit the pending chunks (the source hands
`Buffer.concat(this.audioChunks)` to transcription) in arrival order.
In JavaScript `now - lastProcessTime` is an integer subtraction; with
`Date.now` values it is never negative, and the `Nat` truncation chosen
here takes the same skip branch in either convention. -/
def processAccumulatedAudio {χ : Type} (s : State χ) (now : Nat) :
    State χ × Option (List χ) :=
  if now - s.lastProcessTime < 3000 then (s, none)
  else if s.audioChunks.length < s.minChunksBeforeProcessing then (s, none)
  else
    ({ s with lastProcessTime := now, audioChunks := [], chunkCount := 0 },
     some s.audioChunks)

/-- Embeds `AudioBuffer.forceProcessAudio` (lines 143-155): cancel the
timer, then, when any chunks are pending, run
`processAccumulatedAudio` (with its gating intact). -/
def forceProcessAudio {χ : Type} (s : State χ) (now : Nat) :
    State χ × Option (List χ) :=
  let s1 := { s with intervalActive := false }
  if s1.audioChunks.length > 0 then processAccumulatedAudio s1 now
  else (s1, none)

/-- Embeds the session-relevant effect of `AudioBuffer.setSessionInfo`
(lines 51-85): record the session id. -/
def setSessionInfo {χ : Type} (s : State χ) (sid : String) : State χ :=
  { s with sessionId := some sid }

/-- Embeds `AudioBuffer.reset` (lines 458-499): clear the chunks,
counters, flags and timer and drop the session identity. -/
def reset {χ : Type} (s : State χ) : State χ :=
  { s with
    audioChunks := []
    isRecording := false
    lastProcessTime := 0
    chunkCount := 0
    intervalActive := false
    sessionId := none }

end AudioBuffer

/-- Events driving the single module-level `audioBuffer` of `src/gstt.js`
(line 503): the Twilio WebSocket messages dispatched by the connection
handler (lines 510-556) plus a tick of the processing timer.  A media
event carries its chunk payload; with provenance-tagged chunks the tag
names the session whose connection delivered the frame (the handler
itself never reads it, mirroring the source, which ignores everything
but `data.media.payload`). -/
inductive TwEvent (χ : Type) where
  | connected
  | start (callSid : String)
  | media (payload : χ)
  | stop
  | timerTick
  | other
deriving DecidableEq

namespace AudioBuffer

/-- One step of the server: how the connection handler of `src/gstt.js`
(lines 510-556) and the processing timer act on the shared buffer at
time `now`, together with the segment handed to transcription when a
flush fires. -/
def step {χ : Type} (s : State χ) (now : Nat) : TwEvent χ → State χ × Option (List χ)
  | .connected => (s, none)
  | .start sid => (setSessionInfo (reset s) sid, none)
  | .media p => (addAudioChunk s p, none)
  | .stop => forceProcessAudio s now
  | .timerTick => if s.intervalActive then processAccumulatedAudio s now else (s, none)
  | .other => (s, none)

/-- Run a timed event trace against the shared buffer, collecting every
flushed segment in order. -/
def run {χ : Type} (s : State χ) : List (Nat × TwEvent χ) → State χ × List (List χ)
  | [] => (s, [])
  | (now, e) :: rest =>
    let r1 := step s now e
    let r2 := run r1.1 rest
    (r2.1, r1.2.toList ++ r2.2)

end AudioBuffer

/-! ## Concrete scenarios used by the claims -/

/-- Call SID of session A in the interleaving scenarios. -/
def sidA : String := "CAaaaaaaaaaaaaaaaaaaaaaaaaaaaaaaaa"

/-- Call SID of session B in the interleaving scenarios. -/
def sidB : String := "CAbbbbbbbbbbbbbbbbbbbbbbbbbbbbbbbb"

/-- Interleaved two-session trace over provenance-tagged chunks: session A
starts, 50 of A's frames (byte 1) arrive, one of B's frames (byte 2)
arrives on B's concurrent connection, 49 more of A's frames arrive, and
the timer ticks 5000 ms in. -/
def c1Events : List (Nat × TwEvent (String × List Nat)) :=
  [(0, .start sidA)]
  ++ List.replicate 50 (1000, TwEvent.media (sidA, [1]))
  ++ [(1500, TwEvent.media (sidB, [2]))]
  ++ List.replicate 49 (2000, TwEvent.media (sidA, [1]))
  ++ [(5000, .timerTick)]

/-- Session-stop trace: session A starts, 40 one-byte frames arrive
(below the `minChunksBeforeProcessing` threshold of 100), and the stop
signal arrives 100 s in. -/
def c2Events : List (Nat × TwEvent (List Nat)) :=
  [(0, .start sidA)]
  ++ List.replicate 40 (1000, TwEvent.media [0])
  ++ [(100000, .stop)]

/-- The spec's reordering example: frames with sequence numbers 3, 1, 2
carrying payload bytes C (0x43), A (0x41), B (0x42). -/
def specReorderMsgs : List TwilioMsg :=
  [⟨mediaEvent, 3, some [0x43]⟩, ⟨mediaEvent, 1, some [0x41]⟩,
   ⟨mediaEvent, 2, some [0x42]⟩]

/-- The reordering example padded with 97 in-order one-byte frames
(sequence numbers 4..100) so that a flush threshold of 100 is met. -/
def c3Msgs : List TwilioMsg :=
  specReorderMsgs ++ (List.range 97).map (fun i => ⟨mediaEvent, 4 + i, some [0]⟩)

/-- The live-server trace delivering the payloads of `c3Msgs` in arrival
order, then a timer tick 5000 ms in. -/
def c3Events : List (Nat × TwEvent (List Nat)) :=
  [(0, .start sidA)]
  ++ c3Msgs.map (fun m => (1000, TwEvent.media (m.payload.getD [])))
  ++ [(5000, .timerTick)]

/-! # Theorems -/

/-! ## Helper lemmas -/

/-- Folding `addAudioChunk` over any frame list appends exactly those
frames, in arrival order, to the one shared pending list. -/
theorem addAudioChunk_foldl {χ : Type} (ps : List χ) :
    ∀ s : AudioBuffer.State χ,
      (ps.foldl AudioBuffer.addAudioChunk s).audioChunks = s.audioChunks ++ ps := by
  induction ps with
  | nil => intro s; simp
  | cons p ps ih =>
    intro s
    simp only [List.foldl_cons, ih, AudioBuffer.addAudioChunk, List.append_assoc,
      List.singleton_append]

/-! ## C4: branching decoder vs lookup-table decoder -/

/-- C4 counterexample: at input byte 0x00 the branching decoder
`ImprovedAudioConverter.mulawDecode` returns -31876 while the
lookup-table path `mulawDecodeAlt` returns -15492, so the two code
paths do silently diverge. -/
theorem c4_decoders_diverge_at_zero :
    ImprovedAudioConverter.mulawDecode 0 = -31876
    ∧ ImprovedAudioConverter.mulawDecodeAlt 0 = -15492
    ∧ ImprovedAudioConverter.mulawDecode 0 ≠ ImprovedAudioConverter.mulawDecodeAlt 0 := by
  decide

/-- C4 amended: over the full byte domain the branching decoder and the
lookup-table decoder agree only at the two zero-magnitude codes 0x7F
and 0xFF; on each of the other 254 bytes they return different sample
values. -/
theorem c4_decoders_agree_iff :
    ∀ b : Fin 256,
      (ImprovedAudioConverter.mulawDecode b.val
          = ImprovedAudioConverter.mulawDecodeAlt b.val)
        ↔ (b.val = 0x7F ∨ b.val = 0xFF) := by
  decide

/-! ## C5: decoding the silence byte 0xFF -/

/-- C5: the live decoder `AudioBuffer.mulawToPcm` and the lookup table of
`ImprovedAudioConverter` both map the μ-law silence byte 0xFF to 132
(the bias, never subtracted back), which is not within 8 of zero. -/
theorem c5_silence_decodes_to_bias :
    AudioBuffer.mulawToPcm 0xFF = 132
    ∧ ImprovedAudioConverter.mulawDecodeAlt 0xFF = 132
    ∧ ¬(-8 ≤ AudioBuffer.mulawToPcm 0xFF ∧ AudioBuffer.mulawToPcm 0xFF ≤ 8) := by
  decide

/-! ## C6: totality and 16-bit range of the clipped decoders -/

/-- C6: on every byte of the full domain 0..255 the decoders of
`Base64ToWavConverter` and `ImprovedAudioConverter` (both clipped to
±32635) return a value in the signed 16-bit range; being Lean
functions on that domain they are total and deterministic. -/
theorem c6_decode_total_in_int16_range :
    ∀ b : Fin 256,
      (-32768 ≤ Base64ToWavConverter.mulawDecode b.val
        ∧ Base64ToWavConverter.mulawDecode b.val ≤ 32767)
      ∧ (-32768 ≤ ImprovedAudioConverter.mulawDecode b.val
        ∧ ImprovedAudioConverter.mulawDecode b.val ≤ 32767) := by
  decide

/-! ## C10: range of the unclipped live decoder -/

/-- C10: the unclipped decoder `AudioBuffer.mulawToPcm` of the live
server stays within [-16004, 16004] on every byte, hence within the
signed 16-bit range, so its `Int16Array` store is exact. -/
theorem c10_live_decoder_range :
    ∀ b : Fin 256,
      (-16004 ≤ AudioBuffer.mulawToPcm b.val ∧ AudioBuffer.mulawToPcm b.val ≤ 16004)
      ∧ (-32768 ≤ AudioBuffer.mulawToPcm b.val ∧ AudioBuffer.mulawToPcm b.val ≤ 32767) := by
  decide

/-! ## C1: sessions and the shared reassembly buffer -/

/-- C1 counterexample: in the interleaving trace `c1Events` the single
flush (emitted while the buffer's session id is still session A's)
contains the frame `(sidB, [2])` that session B's connection delivered,
because every connection feeds the one module-level `audioBuffer`. -/
theorem c1_sessions_share_buffer :
    ((AudioBuffer.run AudioBuffer.initState c1Events).1.sessionId = some sidA)
    ∧ ((AudioBuffer.run AudioBuffer.initState c1Events).2.length = 1)
    ∧ ((sidB, [2]) ∈ (AudioBuffer.run AudioBuffer.initState c1Events).2.flatten)
    ∧ ((sidA, [1]) ∈ (AudioBuffer.run AudioBuffer.initState c1Events).2.flatten) := by
  decide

/-- C1 amended: there is exactly one shared buffer; interleaved
`addAudioChunk` calls append every session's frames to the same pending
list in arrival order, and a flush emits the whole pending list
regardless of which session added each frame. -/
theorem c1_shared_buffer_flushes_all_frames :
    (∀ (χ : Type) (ps : List χ) (s : AudioBuffer.State χ),
      (ps.foldl AudioBuffer.addAudioChunk s).audioChunks = s.audioChunks ++ ps)
    ∧ (∀ (χ : Type) (s : AudioBuffer.State χ) (now : Nat),
      (AudioBuffer.processAccumulatedAudio s now).2 = none
      ∨ (AudioBuffer.processAccumulatedAudio s now).2 = some s.audioChunks) := by
  constructor
  · intro χ ps s
    exact addAudioChunk_foldl ps s
  · intro χ s now
    unfold AudioBuffer.processAccumulatedAudio
    split
    · exact Or.inl rfl
    · split
      · exact Or.inl rfl
      · exact Or.inr rfl

/-! ## C2: the session-stop signal and trailing audio -/

/-- C2: in the trace `c2Events` the stop signal cancels the timer but
produces no flush at all: `forceProcessAudio` delegates to
`processAccumulatedAudio`, whose `minChunksBeforeProcessing` gate
rejects the 40 pending frames, so the trailing audio is left behind
(and is then discarded by the reset on disconnect). -/
theorem c2_stop_skips_forced_flush :
    ((AudioBuffer.run AudioBuffer.initState c2Events).2 = [])
    ∧ ((AudioBuffer.run AudioBuffer.initState c2Events).1.audioChunks.length = 40)
    ∧ ((AudioBuffer.run AudioBuffer.initState c2Events).1.intervalActive = false) := by
  decide

/-! ## C3: flush order and the offline reassembler -/

unseal List.merge List.mergeSort in
/-- C3 counterexample: delivering the frames of `c3Msgs` (sequence
numbers 3, 1, 2, 4, 5, ...) to the live server and ticking the timer
flushes the payload bytes in arrival order `C, A, B, ...`, not in the
ascending-sequence order `A, B, C, ...` that the offline reassembler
`extractAudioFromTwilioArray` produces from the same frames: the live
`flush()` does not sort by sequence number. -/
theorem c3_live_flush_not_sorted :
    ((AudioBuffer.run AudioBuffer.initState c3Events).2.flatten.flatten
      = [0x43, 0x41, 0x42] ++ List.replicate 97 0)
    ∧ (TwilioAudioProcessor.extractAudioFromTwilioArray c3Msgs
      = .ok ([0x41, 0x42, 0x43] ++ List.replicate 97 0))
    ∧ ([0x43, 0x41, 0x42] ++ List.replicate 97 0
      ≠ ([0x41, 0x42, 0x43] ++ List.replicate 97 0 : List Nat)) := by
  decide

unseal List.merge List.mergeSort in
/-- C3 amended: the offline `extractAudioFromTwilioArray` concatenates
payloads ascending by sequence number — on the spec's frames
(sequences 3, 1, 2 with payloads C, A, B) it yields A‖B‖C — while the
live `processAccumulatedAudio` flush emits the pending chunks in
arrival order, ignoring sequence numbers, and clears the pending
list. -/
theorem c3_flush_order :
    (TwilioAudioProcessor.extractAudioFromTwilioArray specReorderMsgs
      = .ok [0x41, 0x42, 0x43])
    ∧ (∀ (χ : Type) (s : AudioBuffer.State χ) (now : Nat),
      (AudioBuffer.processAccumulatedAudio s now).2 = none
      ∨ ((AudioBuffer.processAccumulatedAudio s now).2 = some s.audioChunks
        ∧ (AudioBuffer.processAccumulatedAudio s now).1.audioChunks = [])) := by
  constructor
  · decide
  · intro χ s now
    unfold AudioBuffer.processAccumulatedAudio
    split
    · exact Or.inl rfl
    · split
      · exact Or.inl rfl
      · exact Or.inr ⟨rfl, rfl⟩

/-! ## Little-endian read lemmas -/

/-- Reading a 32-bit field one position into a cons skips the head. -/
theorem readU32LE_cons_succ (a : Nat) (l : List Nat) (i : Nat) :
    readU32LE (a :: l) (i + 1) = readU32LE l i := rfl

/-- Reading a 16-bit field one position into a cons skips the head. -/
theorem readU16LE_cons_succ (a : Nat) (l : List Nat) (i : Nat) :
    readU16LE (a :: l) (i + 1) = readU16LE l i := rfl

/-- A 32-bit field at the head of a byte list decodes positionally. -/
theorem readU32LE_cons4 (b0 b1 b2 b3 : Nat) (rest : List Nat) :
    readU32LE (b0 :: b1 :: b2 :: b3 :: rest) 0
      = b0 + 256 * b1 + 65536 * b2 + 16777216 * b3 := rfl

/-- A 16-bit field at the head of a byte list decodes positionally. -/
theorem readU16LE_cons2 (b0 b1 : Nat) (rest : List Nat) :
    readU16LE (b0 :: b1 :: rest) 0 = b0 + 256 * b1 := rfl

/-! ## C7: WAV header field correctness -/

/-- C7: `AudioBuffer.createWavHeader` always emits 44 bytes whose RIFF
chunk size field reads back as `36 + dataLength`, audio format as 1,
channel count 1, sample rate 8000, byte rate
`sampleRate*channels*bitsPerSample/8`, block align
`channels*bitsPerSample/8`, bits per sample 16 and data chunk size
exactly `dataLength`; `Base64ToWavConverter.createWavBuffer` emits
`44 + |pcm|` bytes with chunk size `36 + |pcm|` and data size `|pcm|`;
and on an empty PCM buffer the output is exactly 44 bytes with
`ChunkSize = 36` and `Subchunk2Size = 0`. -/
theorem c7_wav_header_fields (dataLength : Nat) (pcm : List Nat)
    (h1 : 36 + dataLength < 4294967296) (h2 : 36 + pcm.length < 4294967296) :
    ((AudioBuffer.createWavHeader dataLength).length = 44
      ∧ readU32LE (AudioBuffer.createWavHeader dataLength) 4 = 36 + dataLength
      ∧ readU16LE (AudioBuffer.createWavHeader dataLength) 20 = 1
      ∧ readU16LE (AudioBuffer.createWavHeader dataLength) 22 = 1
      ∧ readU32LE (AudioBuffer.createWavHeader dataLength) 24 = 8000
      ∧ readU32LE (AudioBuffer.createWavHeader dataLength) 28 = 8000 * 1 * 16 / 8
      ∧ readU16LE (AudioBuffer.createWavHeader dataLength) 32 = 1 * 16 / 8
      ∧ readU16LE (AudioBuffer.createWavHeader dataLength) 34 = 16
      ∧ readU32LE (AudioBuffer.createWavHeader dataLength) 40 = dataLength)
    ∧ ((Base64ToWavConverter.createWavBuffer pcm).length = 44 + pcm.length
      ∧ readU32LE (Base64ToWavConverter.createWavBuffer pcm) 4 = 36 + pcm.length
      ∧ readU32LE (Base64ToWavConverter.createWavBuffer pcm) 40 = pcm.length)
    ∧ ((Base64ToWavConverter.createWavBuffer []).length = 44
      ∧ readU32LE (Base64ToWavConverter.createWavBuffer []) 4 = 36
      ∧ readU32LE (Base64ToWavConverter.createWavBuffer []) 40 = 0) := by
  refine ⟨⟨?_, ?_, ?_, ?_, ?_, ?_, ?_, ?_, ?_⟩, ⟨?_, ?_, ?_⟩, ?_, ?_, ?_⟩
  · simp only [AudioBuffer.createWavHeader, u32le, u16le, List.cons_append,
      List.nil_append, List.length_append, List.length_cons, List.length_nil]
  · simp only [AudioBuffer.createWavHeader, u32le, u16le, List.cons_append,
      List.nil_append, readU32LE_cons_succ, readU32LE_cons4] <;> omega
  · simp only [AudioBuffer.createWavHeader, u32le, u16le, List.cons_append,
      List.nil_append, readU16LE_cons_succ, readU16LE_cons2]
  · simp only [AudioBuffer.createWavHeader, u32le, u16le, List.cons_append,
      List.nil_append, readU16LE_cons_succ, readU16LE_cons2]
  · rw [AudioBuffer.createWavHeader]
    simp only [u32le, u16le, List.cons_append, List.nil_append, readU32LE_cons_succ]
    rw [readU32LE_cons4]
  · rw [AudioBuffer.createWavHeader]
    simp only [u32le, u16le, List.cons_append, List.nil_append, readU32LE_cons_succ]
    rw [readU32LE_cons4]
  · simp only [AudioBuffer.createWavHeader, u32le, u16le, List.cons_append,
      List.nil_append, readU16LE_cons_succ, readU16LE_cons2]
  · simp only [AudioBuffer.createWavHeader, u32le, u16le, List.cons_append,
      List.nil_append, readU16LE_cons_succ, readU16LE_cons2]
  · simp only [AudioBuffer.createWavHeader, u32le, u16le, List.cons_append,
      List.nil_append, readU32LE_cons_succ, readU32LE_cons4] <;> omega
  · simp only [Base64ToWavConverter.createWavBuffer, u32le, u16le, List.cons_append,
      List.nil_append, List.length_append, List.length_cons, List.length_nil] <;> omega
  · simp only [Base64ToWavConverter.createWavBuffer, u32le, u16le, List.cons_append,
      List.nil_append, readU32LE_cons_succ, readU32LE_cons4] <;> omega
  · simp only [Base64ToWavConverter.createWavBuffer, u32le, u16le, List.cons_append,
      List.nil_append, readU32LE_cons_succ, readU32LE_cons4] <;> omega
  · simp only [Base64ToWavConverter.createWavBuffer, u32le, u16le, List.cons_append,
      List.nil_append, List.length_append, List.length_cons, List.length_nil]
  · simp only [Base64ToWavConverter.createWavBuffer, u32le, u16le, List.cons_append,
      List.nil_append, List.length_nil, readU32LE_cons_succ, readU32LE_cons4] <;> omega
  · simp only [Base64ToWavConverter.createWavBuffer, u32le, u16le, List.cons_append,
      List.nil_append, List.length_nil, readU32LE_cons_succ, readU32LE_cons4] <;> omega

/-- C7 witness at `dataLength = 0`, `pcm = []`. -/
theorem c7_wav_header_fields_witness :
    readU32LE (AudioBuffer.createWavHeader 0) 4 = 36 + 0
    ∧ readU32LE (Base64ToWavConverter.createWavBuffer []) 40 = List.length ([] : List Nat) :=
  ⟨(c7_wav_header_fields 0 [] (by decide) (by decide)).1.2.1,
   (c7_wav_header_fields 0 [] (by decide) (by decide)).2.1.2.2⟩

/-! ## C8: timer-tick gating -/

/-- C8: with the constructor threshold of 100 chunks, a timer tick
(`processAccumulatedAudio`) emits a flush exactly when at least 3000 ms
have elapsed since the previous flush and at least 100 chunks are
pending; otherwise it returns the state unchanged with no output. -/
theorem c8_tick_gating (χ : Type) (s : AudioBuffer.State χ) (now : Nat)
    (hmin : s.minChunksBeforeProcessing = 100) :
    (((AudioBuffer.processAccumulatedAudio s now).2).isSome
      ↔ (3000 ≤ now - s.lastProcessTime ∧ 100 ≤ s.audioChunks.length))
    ∧ ((AudioBuffer.processAccumulatedAudio s now).2 = none
      → AudioBuffer.processAccumulatedAudio s now = (s, none)) := by
  unfold AudioBuffer.processAccumulatedAudio
  rw [hmin]
  split
  next hg =>
    exact ⟨⟨fun h => by simp at h, fun hb => absurd hb.1 (by omega)⟩, fun _ => rfl⟩
  next hg =>
    split
    next hc =>
      exact ⟨⟨fun h => by simp at h, fun hb => absurd hb.2 (by omega)⟩, fun _ => rfl⟩
    next hc =>
      exact ⟨⟨fun _ => ⟨by omega, by omega⟩, fun _ => rfl⟩, fun h => by simp at h⟩

/-- C8 witness at the constructor state and time 0 (both gates closed,
so the tick is a silent no-op there). -/
theorem c8_tick_gating_witness :
    (((AudioBuffer.processAccumulatedAudio
        (AudioBuffer.initState : AudioBuffer.State (List Nat)) 0).2).isSome
      ↔ (3000 ≤ 0 - (AudioBuffer.initState : AudioBuffer.State (List Nat)).lastProcessTime
        ∧ 100 ≤ (AudioBuffer.initState : AudioBuffer.State (List Nat)).audioChunks.length))
    ∧ ((AudioBuffer.processAccumulatedAudio
        (AudioBuffer.initState : AudioBuffer.State (List Nat)) 0).2 = none
      → AudioBuffer.processAccumulatedAudio
          (AudioBuffer.initState : AudioBuffer.State (List Nat)) 0
        = ((AudioBuffer.initState : AudioBuffer.State (List Nat)), none)) :=
  c8_tick_gating (List Nat) AudioBuffer.initState 0 rfl

/-! ## C9: empty flush and empty WAV -/

/-- C9 counterexample: `AudioStitcher.createWavFile` called with zero
pending chunks raises its "No audio chunks to process" error instead of
returning an empty artifact. -/
theorem c9_empty_stitch_throws :
    AudioStitcher.createWavFile [] = .error AudioStitcher.errNoChunks := rfl

/-- C9 amended: building a WAV from a zero-length PCM payload succeeds
(44 bytes, `ChunkSize = 36`, `Subchunk2Size = 0`, and in general
`44 + |pcm|` bytes), and the live tick is callable with zero pending
chunks, returning unchanged without error; but `AudioStitcher.createWavFile`
with zero pending chunks throws instead of producing an empty Segment. -/
theorem c9_empty_flush_and_wav :
    (∀ pcm : List Nat, (Base64ToWavConverter.createWavBuffer pcm).length = 44 + pcm.length)
    ∧ ((Base64ToWavConverter.createWavBuffer []).length = 44
      ∧ readU32LE (Base64ToWavConverter.createWavBuffer []) 4 = 36
      ∧ readU32LE (Base64ToWavConverter.createWavBuffer []) 40 = 0)
    ∧ (∀ (χ : Type) (s : AudioBuffer.State χ) (now : Nat),
      s.audioChunks = [] → 0 < s.minChunksBeforeProcessing →
        AudioBuffer.processAccumulatedAudio s now = (s, none))
    ∧ AudioStitcher.createWavFile [] = .error AudioStitcher.errNoChunks := by
  refine ⟨?_, by decide, ?_, rfl⟩
  · intro pcm
    simp only [Base64ToWavConverter.createWavBuffer, u32le, u16le, List.length_append,
      List.length_cons, List.length_nil] <;> omega
  · intro χ s now hempty hmin
    unfold AudioBuffer.processAccumulatedAudio
    rw [hempty]
    have hlt : ([] : List χ).length < s.minChunksBeforeProcessing := by simpa using hmin
    simp [hlt] <;> omega

/-- C9 witness: the zero-pending tick no-op at the constructor state. -/
theorem c9_empty_flush_and_wav_witness :
    AudioBuffer.processAccumulatedAudio
        (AudioBuffer.initState : AudioBuffer.State (List Nat)) 5000
      = ((AudioBuffer.initState : AudioBuffer.State (List Nat)), none) :=
  c9_empty_flush_and_wav.2.2.1 (List Nat) AudioBuffer.initState 5000 rfl (by decide)

end TWS
